import Mathlib

/-!
Shallow embedding of the air-quality agent pipeline from `apia_agent.py` and
`tools.py`: the search stub, the CSV row lookup, the snippet parser, the
fetch-with-fallback, the trend classifier, the explanation formatter and the
advisory generator, together with theorems checking the behavioural claims
made about them.

Python dictionaries carrying heterogeneous values are embedded as association
lists over `PyVal`; CSV rows (whose values are always strings) as association
lists over `String`.  Python floats are idealised as rationals.  A Python
call that raises an uncaught exception is modelled by an `Option`/explicit
error constructor.
-/

namespace APIA

/-! ### Character-list string machinery -/

/-- Boolean test that `n` is a prefix of `h` (character lists). -/
def pfx : List Char → List Char → Bool
  | [], _ => true
  | _ :: _, [] => false
  | a :: as, b :: bs => a == b && pfx as bs

/-- Boolean test that `n` occurs as a contiguous substring of `h`,
    the model of the Python operator `in` on strings. -/
def hasSub (n : List Char) : List Char → Bool
  | [] => pfx n []
  | c :: t => pfx n (c :: t) || hasSub n t

/-- Model of Python `str.lower()` (ASCII case folding, which covers every
    string the program compares). -/
def strLower (s : String) : String := ⟨s.data.map Char.toLower⟩

theorem pfx_iff : ∀ n h : List Char, pfx n h = true ↔ n <+: h := by
  intro n
  induction n with
  | nil => intro h; simp only [pfx, true_iff]; exact List.nil_prefix
  | cons a as ih =>
    intro h
    cases h with
    | nil =>
      constructor
      · intro hc; simp [pfx] at hc
      · rintro ⟨t, ht⟩; simp at ht
    | cons b bs =>
      simp only [pfx, Bool.and_eq_true, beq_iff_eq, ih bs]
      constructor
      · rintro ⟨rfl, u, rfl⟩
        exact ⟨u, rfl⟩
      · rintro ⟨u, hu⟩
        rw [List.cons_append] at hu
        injection hu with h1 h2
        exact ⟨h1, u, h2⟩

theorem hasSub_iff : ∀ n h : List Char, hasSub n h = true ↔ n <:+: h := by
  intro n h
  induction h with
  | nil =>
    simp only [hasSub, pfx_iff]
    constructor
    · intro hp
      exact hp.isInfix
    · rintro ⟨s, t, hst⟩
      rw [List.append_assoc, List.append_eq_nil] at hst
      obtain ⟨rfl, hnt⟩ := hst
      rw [List.append_eq_nil] at hnt
      obtain ⟨rfl, rfl⟩ := hnt
      exact List.nil_prefix
  | cons c t ih =>
    simp only [hasSub, Bool.or_eq_true, pfx_iff, ih]
    constructor
    · rintro (⟨u, hu⟩ | ⟨s, u, hsu⟩)
      · exact ⟨[], u, by simpa using hu⟩
      · exact ⟨c :: s, u, by simp [← hsu]⟩
    · rintro ⟨s, u, hsu⟩
      cases s with
      | nil => exact Or.inl ⟨u, by simpa using hsu⟩
      | cons d ds =>
        rw [List.cons_append, List.cons_append] at hsu
        injection hsu with h1 h2
        exact Or.inr ⟨ds, u, h2⟩

/-- Mapping a function over both lists preserves substring containment. -/
theorem isInfix_map {n l : List Char} (f : Char → Char) (h : n <:+: l) :
    n.map f <:+: l.map f := by
  obtain ⟨s, u, hsu⟩ := h
  exact ⟨s.map f, u.map f, by simp [← hsu]⟩

/-! ### Python values and dictionaries -/

/-- The Python values the program stores in its dictionaries: `None`,
    booleans, numbers (ints and floats idealised as rationals) and strings. -/
inductive PyVal where
  | vNone : PyVal
  | vBool : Bool → PyVal
  | vNum : ℚ → PyVal
  | vStr : String → PyVal
deriving DecidableEq

/-- A Python dict with string keys, as an association list in insertion
    order (keys are unique in all dicts the program builds). -/
abbrev PyDict := List (String × PyVal)

/-- `d.get(k)` without a default: `None` when the key is absent. -/
def pyGet (d : PyDict) (k : String) : PyVal :=
  match d.find? (fun p => p.1 == k) with
  | some p => p.2
  | Option.none => PyVal.vNone

/-- First value stored under `k`, or `none` when the key is absent
    (distinguishes a truly absent key from a stored Python `None`). -/
def dictGet? (d : PyDict) (k : String) : Option PyVal :=
  match d.find? (fun p => p.1 == k) with
  | some p => some p.2
  | Option.none => Option.none

/-- `d.get(k, v)`: value under `k`, or the default `v`. -/
def pyGetD (d : PyDict) (k : String) (v : PyVal) : PyVal :=
  match d.find? (fun p => p.1 == k) with
  | some p => p.2
  | Option.none => v

/-- Python truthiness of the embedded values: `None` is falsy, a number is
    truthy iff nonzero, a string iff non-empty. -/
def truthy : PyVal → Bool
  | PyVal.vNone => false
  | PyVal.vBool b => b
  | PyVal.vNum q => !(q == 0)
  | PyVal.vStr s => !(s == "")

/-! ### Numeric coercions: models of Python `float(...)` and `int(...)` -/

/-- Strip leading and trailing whitespace, as `float`/`int` do. -/
def stripWs (cs : List Char) : List Char :=
  ((cs.dropWhile Char.isWhitespace).reverse.dropWhile Char.isWhitespace).reverse

/-- Read a digit run as a natural number; `none` on any non-digit. -/
def digitsVal? (cs : List Char) : Option ℕ :=
  cs.foldl
    (fun acc c =>
      match acc with
      | some n => if c.isDigit then some (10 * n + (c.toNat - 48)) else Option.none
      | Option.none => Option.none)
    (some 0)

/-- Leading sign of a numeric literal. -/
def signSplit : List Char → ℚ × List Char
  | '-' :: t => (-1, t)
  | '+' :: t => (1, t)
  | t => (1, t)

/-- Model of Python `float(s)` on decimal literals (optional sign, digits,
    at most one point, surrounding whitespace): `none` when `float` would
    raise `ValueError`.  Exponent/infinity forms never reach this program. -/
def pyFloat? (s : String) : Option ℚ :=
  let cs := stripWs s.data
  let sr := signSplit cs
  let ip := sr.2.takeWhile (fun c => !(c == '.'))
  match sr.2.drop ip.length with
  | [] =>
    if ip.isEmpty then Option.none
    else (digitsVal? ip).map (fun n => sr.1 * n)
  | _ :: frac =>
    if ip.isEmpty && frac.isEmpty then Option.none
    else
      match digitsVal? ip, digitsVal? frac with
      | some a, some b => some (sr.1 * (a + (b : ℚ) / 10 ^ frac.length))
      | _, _ => Option.none

/-- Model of Python `int(s)` on integer literals: `none` when `int` would
    raise `ValueError`. -/
def pyInt? (s : String) : Option ℤ :=
  let cs := stripWs s.data
  let sr := signSplit cs
  if sr.2.isEmpty then Option.none
  else (digitsVal? sr.2).map (fun n => if sr.1 < 0 then -(n : ℤ) else n)

/-- Model of Python `float(v)` on an arbitrary value: floats pass through,
    booleans become 0/1, strings are parsed, `None` raises (`none`). -/
def pyFloat : PyVal → Option ℚ
  | PyVal.vNone => Option.none
  | PyVal.vBool b => some (if b then 1 else 0)
  | PyVal.vNum q => some q
  | PyVal.vStr s => pyFloat? s

/-- Rendering of a value inside an f-string.  Numbers are rendered in the
    integral-float form Python uses for the values that actually flow into
    the template (`86.0` etc.); non-integral rationals get a plain
    fraction rendering, an approximation never exercised by the claims. -/
def pyStr : PyVal → String
  | PyVal.vNone => "None"
  | PyVal.vBool b => if b then "True" else "False"
  | PyVal.vNum q => if q.den = 1 then toString q.num ++ ".0" else toString q.num ++ "/" ++ toString q.den
  | PyVal.vStr s => s

/-! ### `tools.py`: the search stub and the CSV loader -/

/-- The record returned by `GoogleSearchTool.run`. -/
structure SearchRes where
  query : String
  timestamp : String
  result_snippet : String
  raw_html : String
deriving DecidableEq

/-- Whitespace tokenizer, the model of Python `str.split()` with no
    arguments: splits on runs of whitespace, drops empty tokens.
    `cur` accumulates the current token in reverse. -/
def tokenize : List Char → List Char → List String
  | [], cur => if cur.isEmpty then [] else [⟨cur.reverse⟩]
  | c :: cs, cur =>
    if c.isWhitespace then
      if cur.isEmpty then tokenize cs [] else ⟨cur.reverse⟩ :: tokenize cs []
    else tokenize cs (c :: cur)

/-- Python `query.split()`. -/
def pySplit (s : String) : List String := tokenize s.data []

/-- `GoogleSearchTool.run(query)`.  `query.split()[0]` raises `IndexError`
    on a whitespace-only query, modelled by `none`; `now` stands for
    `datetime.utcnow().isoformat()`. -/
def googleSearchRun (query now : String) : Option SearchRes :=
  match pySplit query with
  | [] => Option.none
  | t :: _ =>
    some
      { query := query
        timestamp := now
        result_snippet :=
          "AQI " ++ t ++ ": 128 (Unhealthy for sensitive groups). PM2.5: 86 µg/m3. Source: example.com"
        raw_html := "<html>...</html>" }

/-- A CSV row as produced by `csv.DictReader`: string keys to string
    values, in column order.  The error records the CSV loader returns use
    the same shape. -/
abbrev Row := List (String × String)

/-- `row.get(k, d)` on a CSV row. -/
def rowGetD (r : Row) (k d : String) : String :=
  match r.find? (fun p => p.1 == k) with
  | some p => p.2
  | Option.none => d

/-- `row.get(k)` on a CSV row, `none` when the key is absent. -/
def rowGet? (r : Row) (k : String) : Option String :=
  match r.find? (fun p => p.1 == k) with
  | some p => some p.2
  | Option.none => Option.none

/-- Truthiness of `res.get("error")`: a present, non-empty error value. -/
def isErrorRecord (r : Row) : Bool :=
  match rowGet? r "error" with
  | some s => !(s == "")
  | Option.none => false

/-- The row-matching test of `CSVLoaderTool.run`:
    `row.get('location','').lower() == location.lower()`. -/
def locMatches (location : String) (r : Row) : Bool :=
  strLower (rowGetD r "location" "") == strLower location

/-- `CSVLoaderTool.run(location)`.  `file` is `none` when the CSV file is
    missing, otherwise the parsed rows in file order; `path` is the
    stringified path reported in the missing-file error record. -/
def csvRun (path : String) (file : Option (List Row)) (location : String) : Row :=
  match file with
  | Option.none => [("error", "sample data missing"), ("path", path)]
  | some rows =>
    match rows.foldl (fun latest row => if locMatches location row then some row else latest) Option.none with
    | some r => r
    | Option.none => [("error", "no data for location")]

/-! ### `apia_agent.py`: snippet parser -/

/-- `parse_search_snippet(snippet)`.  The source tests four (partly
    redundant) substring conditions:
    `"pm2.5" in lowered or "pm2.5" in snippet or "pm2.5" in snippet.lower()
    or "pm2.5" in snippet`; on success it selects one of two fixed constant
    value sets depending on whether `"86" in snippet`.  Nothing in the body
    can raise, so the `except` branch returning `{}` is dead. -/
def parse_search_snippet (snippet : String) : PyDict :=
  let lowered := strLower snippet
  if hasSub "pm2.5".data lowered.data || hasSub "pm2.5".data snippet.data
      || hasSub "pm2.5".data (strLower snippet).data || hasSub "pm2.5".data snippet.data then
    if hasSub "86".data snippet.data then
      [("pm25", PyVal.vNum 86), ("pm10", PyVal.vNum 150), ("aqi", PyVal.vNum 128)]
    else
      [("pm25", PyVal.vNum 55), ("pm10", PyVal.vNum 90), ("aqi", PyVal.vNum 80)]
  else []

/-! ### `apia_agent.py`: `DataAgent.fetch` -/

/-- Outcome of `DataAgent.fetch`: a returned dict, or an uncaught exception
    escaping the `except` block (a coercion/key failure on the CSV row). -/
inductive FetchOut where
  | ok : PyDict → FetchOut
  | raised : FetchOut
deriving DecidableEq

/-- `int(csv_res.get("aqi", -1))`: the default `-1` is already an int;
    a present value is a string fed to `int(...)`. -/
def aqiCoerce (r : Row) : Option ℤ :=
  match rowGet? r "aqi" with
  | some sa => pyInt? sa
  | Option.none => some (-1)

/-- `csv_res.get("date")` as the stored timestamp value. -/
def optStrVal : Option String → PyVal
  | some s => PyVal.vStr s
  | Option.none => PyVal.vNone

/-- The `except` block of `DataAgent.fetch`: the CSV fallback.  It returns
    the error dict `{"error": "no data available"}` when the CSV result
    carries a truthy `error` key, and otherwise the coerced reading
    (`.raised` when `csv_res["pm25"]`, `float(...)` or `int(...)`
    raises, since those exceptions escape the already-running handler). -/
def fetchFallback (path : String) (file : Option (List Row)) (location : String) : FetchOut :=
  let csv_res := csvRun path file location
  if isErrorRecord csv_res then FetchOut.ok [("error", PyVal.vStr "no data available")]
  else
    match rowGet? csv_res "pm25" with
    | Option.none => FetchOut.raised
    | some s25 =>
      match pyFloat? s25 with
      | Option.none => FetchOut.raised
      | some q25 =>
        match rowGet? csv_res "pm10" with
        | Option.none => FetchOut.raised
        | some s10 =>
          match pyFloat? s10 with
          | Option.none => FetchOut.raised
          | some q10 =>
            match aqiCoerce csv_res with
            | Option.none => FetchOut.raised
            | some aqi =>
              FetchOut.ok
                [("pm25", PyVal.vNum q25), ("pm10", PyVal.vNum q10),
                 ("aqi", PyVal.vNum aqi), ("timestamp", optStrVal (rowGet? csv_res "date")),
                 ("source", PyVal.vStr "sample_csv")]

/-- `DataAgent.fetch(location)`.  `searchOut` is the outcome of the
    `google_search` tool call (`none` when the tool raised);
    `path`/`file` feed the `csv_loader` tool; `now` stands for
    `datetime.utcnow().isoformat()`.  The `try` branch returns the parsed
    dict extended with `source` and `timestamp`; on parse failure
    (empty parse result raising `ValueError`) or tool exception the
    `fetchFallback` branch runs. -/
def fetch (searchOut : Option SearchRes) (path : String) (file : Option (List Row))
    (location now : String) : FetchOut :=
  match searchOut with
  | Option.none => fetchFallback path file location
  | some res =>
    let parsed := parse_search_snippet res.result_snippet
    if parsed.isEmpty then fetchFallback path file location
    else
      FetchOut.ok
        (parsed ++
          [("source", PyVal.vStr "google_search"),
           ("timestamp", PyVal.vStr (if res.timestamp == "" then now else res.timestamp))])

/-! ### `apia_agent.py`: `AnalysisAgent.analyze` -/

/-- Sequence a list of optional values; `none` as soon as one is `none`
    (the model of an exception raised while building a list
    comprehension). -/
def seqOpt {α : Type} : List (Option α) → Option (List α)
  | [] => some []
  | Option.none :: _ => Option.none
  | some a :: t => (seqOpt t).map (fun l => a :: l)

/-- `float(x.get("pm25", 0))` for one history row. -/
def rowVal (x : PyDict) : Option ℚ := pyFloat (pyGetD x "pm25" (PyVal.vNum 0))

/-- The list comprehension
    `[float(x.get("pm25", 0)) for x in recent_series if x.get("pm25")!='']`:
    rows whose `pm25` value equals the empty string are filtered out, every
    other row (including rows with no `pm25` key) is coerced. -/
def histVals (rs : List PyDict) : Option (List ℚ) :=
  seqOpt ((rs.filter (fun x => !(pyGet x "pm25" == PyVal.vStr ""))).map rowVal)

/-- The analysis dict `{"trend": t, "anomaly": b, "confidence": c}`. -/
def mkAnalysis (t : String) (b : Bool) (c : ℚ) : PyDict :=
  [("trend", PyVal.vStr t), ("anomaly", PyVal.vBool b), ("confidence", PyVal.vNum c)]

/-- The dict returned when the `try` block of `analyze` raises. -/
def analysisError : PyDict := [("error", PyVal.vStr "analysis_error")]

/-- `AnalysisAgent.analyze(datapoint, recent_series)`.  `recent_series` is
    `none` for Python `None`; the thresholds `1.3`, `0.8` and the
    confidences `0.8`, `0.9` are the source literals as rationals. -/
def analyze (datapoint : PyDict) (recent_series : Option (List PyDict)) : PyDict :=
  match pyFloat (pyGetD datapoint "pm25" (PyVal.vNum 0)) with
  | Option.none => analysisError
  | some today_pm =>
    match recent_series with
    | Option.none => mkAnalysis "stable" false (8/10)
    | some rs =>
      if rs.isEmpty then mkAnalysis "stable" false (8/10)
      else
        match histVals rs with
        | Option.none => analysisError
        | some past_vals =>
          if past_vals.isEmpty then mkAnalysis "stable" false (8/10)
          else
            let past_avg := past_vals.sum / (past_vals.length : ℚ)
            if 0 < past_avg then
              if past_avg * (13/10) < today_pm then mkAnalysis "rising" true (9/10)
              else if today_pm < past_avg * (8/10) then mkAnalysis "falling" false (9/10)
              else mkAnalysis "stable" false (9/10)
            else mkAnalysis "stable" false (8/10)

/-! ### `apia_agent.py`: `ExplanationAgent.explain` -/

/-- The poor-air warning text. -/
def poorText : String :=
  "Air quality is poor — avoid strenuous outdoor activity. If you have respiratory issues, use a mask."

/-- The moderate-air text. -/
def moderateText : String := "Air quality is moderate; normal activities are OK."

/-- The conversion-failure fallback text. -/
def unableText : String := "Unable to fully assess air quality."

/-- The tail appended to the template: `if pm25 and float(pm25) > 100`
    selects the poor text, `else` the moderate text, and an exception from
    `float(pm25)` (only reachable when `pm25` is truthy) the fallback. -/
def explainTail (pm : PyVal) : String :=
  if truthy pm then
    match pyFloat pm with
    | some v => if 100 < v then poorText else moderateText
    | Option.none => unableText
  else moderateText

/-- `ExplanationAgent.explain(datapoint, analysis, user_prefs)`
    (`user_prefs` is unused by the source body). -/
def explain (datapoint analysis : PyDict) : PyDict :=
  let pm25 := pyGet datapoint "pm25"
  let trend := pyGet analysis "trend"
  [("summary",
    PyVal.vStr ("Current PM2.5 is " ++ pyStr pm25 ++ " µg/m3. Trend: " ++ pyStr trend ++ ". "
      ++ explainTail pm25)),
   ("confidence", pyGetD analysis "confidence" (PyVal.vNum (7/10)))]

/-! ### `apia_agent.py`: `AdvisoryAgent.advise` -/

/-- The four fixed advisory strings, in source order. -/
def adviceAvoid : String := "Avoid outdoor exercise today."

/-- Second outdoor-activity warning. -/
def adviceMask : String := "Use N95 mask if you must go out."

/-- The positive-activity message. -/
def adviceGood : String := "Good day for outdoor activities."

/-- The inhaler warning appended for the asthma preference. -/
def adviceInhaler : String := "Carry inhaler and avoid crowded roads."

/-- `user_prefs and user_prefs.get("asthma")`: the preference dict is
    truthy (present and non-empty) and its `asthma` value truthy. -/
def prefsAsthma : Option PyDict → Bool
  | Option.none => false
  | some p => !p.isEmpty && truthy (pyGet p "asthma")

/-- `AdvisoryAgent.advise(explanation, user_prefs)`: the list stored under
    the `advice` key of the returned dict.  `s.lower()` raises
    `AttributeError` when the summary value is not a string, modelled by
    `none`. -/
def advise (explanation : PyDict) (user_prefs : Option PyDict) : Option (List String) :=
  match pyGetD explanation "summary" (PyVal.vStr "") with
  | PyVal.vStr s =>
    let low := strLower s
    some
      ((if hasSub "poor".data low.data || hasSub "avoid".data low.data then
          [adviceAvoid, adviceMask]
        else [adviceGood]) ++
       (if prefsAsthma user_prefs then [adviceInhaler] else []))
  | _ => Option.none

/-! ### Shared helper lemmas -/

theorem pyFloat_empty_str : pyFloat (PyVal.vStr "") = Option.none := rfl

theorem foldl_latest (p : Row → Bool) :
    ∀ (rows : List Row) (acc : Option Row),
      rows.foldl (fun latest row => if p row then some row else latest) acc
        = ((rows.filter p).getLast?).or acc := by
  intro rows
  induction rows with
  | nil => intro acc; simp
  | cons r rs ih =>
    intro acc
    rw [List.foldl_cons, ih]
    by_cases hp : p r = true
    · rw [if_pos hp, List.filter_cons_of_pos hp]
      have hcons : (r :: rs.filter p).getLast? = (rs.filter p).getLast?.or (some r) := by
        cases l : rs.filter p with
        | nil => rfl
        | cons b t =>
          rw [List.getLast?_cons_cons]
          cases h : (b :: t).getLast? with
          | none => simp [List.getLast?_eq_none_iff] at h
          | some x => rfl
      rw [hcons]
      cases hl : (rs.filter p).getLast? <;> simp
    · rw [if_neg hp, List.filter_cons_of_neg hp]

/-! ### Claim theorems -/

/-- C4: for every input text, the snippet parser returns the empty mapping
    when the text does not contain `"pm2.5"` case-insensitively, the
    pm25=86/pm10=150/aqi=128 mapping when it contains `"pm2.5"`
    (case-insensitively) and `"86"`, and the pm25=55/pm10=90/aqi=80 mapping
    when it contains `"pm2.5"` but not `"86"`. -/
theorem parse_search_snippet_spec (s : String) :
    (¬ ("pm2.5".data <:+: (strLower s).data) → parse_search_snippet s = []) ∧
    ("pm2.5".data <:+: (strLower s).data → "86".data <:+: s.data →
      parse_search_snippet s =
        [("pm25", PyVal.vNum 86), ("pm10", PyVal.vNum 150), ("aqi", PyVal.vNum 128)]) ∧
    ("pm2.5".data <:+: (strLower s).data → ¬ ("86".data <:+: s.data) →
      parse_search_snippet s =
        [("pm25", PyVal.vNum 55), ("pm10", PyVal.vNum 90), ("aqi", PyVal.vNum 80)]) := by
  have hmapfix : "pm2.5".data.map Char.toLower = "pm2.5".data := by decide
  have hcond : (hasSub "pm2.5".data (strLower s).data || hasSub "pm2.5".data s.data
      || hasSub "pm2.5".data (strLower s).data || hasSub "pm2.5".data s.data) = true
      ↔ "pm2.5".data <:+: (strLower s).data := by
    simp only [Bool.or_eq_true, hasSub_iff]
    constructor
    · rintro (((h | h) | h) | h)
      · exact h
      · have := isInfix_map Char.toLower h
        rwa [hmapfix] at this
      · exact h
      · have := isInfix_map Char.toLower h
        rwa [hmapfix] at this
    · intro h
      exact Or.inl (Or.inl (Or.inl h))
  refine ⟨?_, ?_, ?_⟩
  · intro hn
    have hc : (hasSub "pm2.5".data (strLower s).data || hasSub "pm2.5".data s.data
        || hasSub "pm2.5".data (strLower s).data || hasSub "pm2.5".data s.data) = false := by
      rw [← Bool.not_eq_true]
      exact fun h => hn (hcond.mp h)
    simp [parse_search_snippet, hc]
  · intro hp h86
    have hc := hcond.mpr hp
    have h86b := (hasSub_iff "86".data s.data).mpr h86
    simp [parse_search_snippet, hc, h86b]
  · intro hp h86
    have hc := hcond.mpr hp
    have h86b : hasSub "86".data s.data = false := by
      rw [← Bool.not_eq_true]
      exact fun h => h86 ((hasSub_iff "86".data s.data).mp h)
    simp [parse_search_snippet, hc, h86b]

/-- Witness for C4: a concrete snippet containing both substrings. -/
theorem parse_search_snippet_spec_witness :
    parse_search_snippet "Chennai PM2.5: 86 reading" =
      [("pm25", PyVal.vNum 86), ("pm10", PyVal.vNum 150), ("aqi", PyVal.vNum 128)] :=
  (parse_search_snippet_spec "Chennai PM2.5: 86 reading").2.1 (by decide) (by decide)

/-- C10: the search stub returns a record whose `result_snippet` contains
    `"PM2.5: 86"` for every query with at least one whitespace-separated
    token, and raises (returns `none`) exactly on whitespace-only queries. -/
theorem googleSearchRun_spec (q now : String) :
    (pySplit q ≠ [] → ∃ r, googleSearchRun q now = some r ∧
      "PM2.5: 86".data <:+: r.result_snippet.data) ∧
    (googleSearchRun q now = Option.none ↔ pySplit q = []) := by
  constructor
  · intro hne
    cases hs : pySplit q with
    | nil => exact absurd hs hne
    | cons t ts =>
      have hrun : googleSearchRun q now =
          some ⟨q, now,
            "AQI " ++ t ++ ": 128 (Unhealthy for sensitive groups). PM2.5: 86 µg/m3. Source: example.com",
            "<html>...</html>"⟩ := by
        simp [googleSearchRun, hs]
      refine ⟨_, hrun, ?_⟩
      show "PM2.5: 86".data <:+:
        ("AQI " ++ t ++ ": 128 (Unhealthy for sensitive groups). PM2.5: 86 µg/m3. Source: example.com").data
      have h1 : "PM2.5: 86".data <:+:
          (": 128 (Unhealthy for sensitive groups). PM2.5: 86 µg/m3. Source: example.com").data := by
        decide
      have h2 : (": 128 (Unhealthy for sensitive groups). PM2.5: 86 µg/m3. Source: example.com").data
          <:+: ("AQI " ++ t ++ ": 128 (Unhealthy for sensitive groups). PM2.5: 86 µg/m3. Source: example.com").data := by
        refine ⟨("AQI " ++ t).data, [], ?_⟩
        rw [List.append_nil, ← String.data_append]
      exact h1.trans h2
  · cases hs : pySplit q with
    | nil => simp [googleSearchRun, hs]
    | cons t ts => simp [googleSearchRun, hs]

/-- Witness for C10: a concrete three-token query. -/
theorem googleSearchRun_spec_witness :
    ∃ r, googleSearchRun "Chennai AQI today" "T" = some r ∧
      "PM2.5: 86".data <:+: r.result_snippet.data :=
  (googleSearchRun_spec "Chennai AQI today" "T").1 (by decide)

/-- C3: the CSV lookup returns the last row matching the location
    case-insensitively when one exists, an error record when no row
    matches, and an error record when the file is missing. -/
theorem csvRun_spec (path loc : String) :
    (csvRun path Option.none loc = [("error", "sample data missing"), ("path", path)] ∧
      isErrorRecord (csvRun path Option.none loc) = true) ∧
    (∀ rows : List Row, rows.filter (locMatches loc) = [] →
      csvRun path (some rows) loc = [("error", "no data for location")] ∧
      isErrorRecord (csvRun path (some rows) loc) = true) ∧
    (∀ (rows : List Row) (r : Row), (rows.filter (locMatches loc)).getLast? = some r →
      csvRun path (some rows) loc = r) := by
  refine ⟨⟨rfl, rfl⟩, ?_, ?_⟩
  · intro rows hf
    have h := foldl_latest (locMatches loc) rows Option.none
    rw [hf] at h
    constructor
    · simp [csvRun, h]
    · simp [csvRun, h, isErrorRecord, rowGet?]
  · intro rows r hr
    have h := foldl_latest (locMatches loc) rows Option.none
    rw [hr] at h
    simp [csvRun, h]

/-- Witness for C3: two case-insensitive matches; the later row wins. -/
theorem csvRun_spec_witness :
    csvRun "p" (some [[("location", "chennai"), ("pm25", "10")],
      [("location", "Chennai"), ("pm25", "12")],
      [("location", "delhi"), ("pm25", "99")]]) "CHENNAI"
      = [("location", "Chennai"), ("pm25", "12")] :=
  (csvRun_spec "p" "CHENNAI").2.2 _ _ (by decide)

/-- The fixed head of the explanation template for a given datapoint and
    analysis. -/
def tmplHead (d a : PyDict) : String :=
  "Current PM2.5 is " ++ pyStr (pyGet d "pm25") ++ " µg/m3. Trend: "
    ++ pyStr (pyGet a "trend") ++ ". "

theorem explainTail_conv_gt {pm : PyVal} {v : ℚ} (hv : pyFloat pm = some v)
    (h100 : 100 < v) : explainTail pm = poorText := by
  cases pm with
  | vNone => simp [pyFloat] at hv
  | vBool b =>
    simp only [pyFloat, Option.some.injEq] at hv
    cases b <;> rw [← hv] at h100 <;> norm_num at h100
  | vNum q =>
    simp only [pyFloat, Option.some.injEq] at hv
    subst hv
    have hq : (q == 0) = false := by
      rw [beq_eq_false_iff_ne]
      intro h0
      rw [h0] at h100
      norm_num at h100
    simp [explainTail, truthy, hq, pyFloat, h100]
  | vStr s =>
    have hs : (s == "") = false := by
      rw [beq_eq_false_iff_ne]
      rintro rfl
      rw [show pyFloat (PyVal.vStr "") = Option.none from rfl] at hv
      cases hv
    have hv' : pyFloat? s = some v := hv
    simp [explainTail, truthy, hs, pyFloat, hv', h100]

theorem explainTail_conv_le {pm : PyVal} {v : ℚ} (hv : pyFloat pm = some v)
    (h100 : v ≤ 100) : explainTail pm = moderateText := by
  have hnot : ¬ (100 < v) := not_lt.mpr h100
  cases pm with
  | vNone => simp [pyFloat] at hv
  | vBool b => cases b <;> simp [explainTail, truthy, pyFloat, hnot]
  | vNum q =>
    simp only [pyFloat, Option.some.injEq] at hv
    subst hv
    by_cases hq : (q == 0) = true
    · simp [explainTail, truthy, hq]
    · simp only [Bool.not_eq_true] at hq
      simp [explainTail, truthy, hq, pyFloat, hnot]
  | vStr s =>
    by_cases hs : (s == "") = true
    · simp [explainTail, truthy, hs]
    · simp only [Bool.not_eq_true] at hs
      have hv' : pyFloat? s = some v := hv
      simp [explainTail, truthy, hs, pyFloat, hv', hnot]

theorem explainTail_fail {pm : PyVal} (hv : pyFloat pm = Option.none)
    (ht : truthy pm = true) : explainTail pm = unableText := by
  simp [explainTail, ht, hv]

theorem explainTail_falsy {pm : PyVal} (ht : truthy pm = false) :
    explainTail pm = moderateText := by
  simp [explainTail, ht]

theorem explain_summary (d a : PyDict) :
    pyGet (explain d a) "summary"
      = PyVal.vStr (tmplHead d a ++ explainTail (pyGet d "pm25")) := by
  simp [explain, pyGet, tmplHead, List.find?]

theorem explain_confidence (d a : PyDict) :
    pyGet (explain d a) "confidence" = pyGetD a "confidence" (PyVal.vNum (7/10)) := by
  simp [explain, pyGet, List.find?]

/-- C6: the explanation summary is the fixed template head followed by the
    poor-air warning when the pm25 value converts to a number above 100, by
    the moderate text when it converts to a number at most 100, and by the
    assessment-failure text when the conversion is attempted (truthy pm25)
    and fails; the returned confidence is the analysis confidence,
    defaulting to 0.7 when absent. -/
theorem explain_spec (d a : PyDict) :
    (∀ v : ℚ, pyFloat (pyGet d "pm25") = some v → 100 < v →
      pyGet (explain d a) "summary" = PyVal.vStr (tmplHead d a ++ poorText)) ∧
    (∀ v : ℚ, pyFloat (pyGet d "pm25") = some v → v ≤ 100 →
      pyGet (explain d a) "summary" = PyVal.vStr (tmplHead d a ++ moderateText)) ∧
    (pyFloat (pyGet d "pm25") = Option.none → truthy (pyGet d "pm25") = true →
      pyGet (explain d a) "summary" = PyVal.vStr (tmplHead d a ++ unableText)) ∧
    (∀ c : PyVal, dictGet? a "confidence" = some c →
      pyGet (explain d a) "confidence" = c) ∧
    (dictGet? a "confidence" = Option.none →
      pyGet (explain d a) "confidence" = PyVal.vNum (7/10)) := by
  refine ⟨?_, ?_, ?_, ?_, ?_⟩
  · intro v hv h100
    rw [explain_summary, explainTail_conv_gt hv h100]
  · intro v hv h100
    rw [explain_summary, explainTail_conv_le hv h100]
  · intro hv ht
    rw [explain_summary, explainTail_fail hv ht]
  · intro c hc
    rw [explain_confidence]
    unfold pyGetD
    unfold dictGet? at hc
    cases hf : a.find? (fun p => p.1 == "confidence") with
    | none => rw [hf] at hc; exact Option.noConfusion hc
    | some p =>
      simp only [hf, Option.some.injEq] at hc
      simp only [hf]
      exact hc
  · intro hc
    rw [explain_confidence]
    unfold pyGetD
    unfold dictGet? at hc
    cases hf : a.find? (fun p => p.1 == "confidence") with
    | none => simp only [hf]
    | some p => rw [hf] at hc; exact Option.noConfusion hc

/-- Witness for C6: pm25 = 150 selects the poor-air warning, and a missing
    confidence defaults to 0.7. -/
theorem explain_spec_witness :
    pyGet (explain [("pm25", PyVal.vNum 150)] (mkAnalysis "stable" false (8/10))) "summary"
      = PyVal.vStr (tmplHead [("pm25", PyVal.vNum 150)] (mkAnalysis "stable" false (8/10)) ++ poorText)
    ∧ pyGet (explain [] []) "confidence" = PyVal.vNum (7/10) :=
  ⟨(explain_spec [("pm25", PyVal.vNum 150)] (mkAnalysis "stable" false (8/10))).1 150 rfl
      (by norm_num),
   (explain_spec [] []).2.2.2.2 rfl⟩

/-- C9: when the pm25 field is absent, `None`, `0` or the empty string, the
    truthiness test short-circuits the conversion and the summary gets the
    moderate text, never the assessment-failure fallback. -/
theorem explain_falsy_spec (d a : PyDict)
    (h : pyGet d "pm25" = PyVal.vNone ∨ pyGet d "pm25" = PyVal.vNum 0 ∨
      pyGet d "pm25" = PyVal.vStr "") :
    pyGet (explain d a) "summary" = PyVal.vStr (tmplHead d a ++ moderateText) ∧
    explainTail (pyGet d "pm25") ≠ unableText := by
  have ht : truthy (pyGet d "pm25") = false := by
    rcases h with h | h | h <;> simp [h, truthy]
  have hmod := explainTail_falsy ht
  refine ⟨by rw [explain_summary, hmod], by rw [hmod]; decide⟩

/-- Witness for C9: a datapoint with no pm25 key at all. -/
theorem explain_falsy_spec_witness :
    pyGet (explain [] []) "summary" = PyVal.vStr (tmplHead [] [] ++ moderateText) :=
  (explain_falsy_spec [] [] (Or.inl rfl)).1

/-- The `asthma` preference flag as the advisory generator reads it:
    the value stored under `"asthma"`, `None` when no preference mapping
    or no such key is present. -/
def asthmaFlag : Option PyDict → PyVal
  | Option.none => PyVal.vNone
  | some p => pyGet p "asthma"

theorem prefsAsthma_eq_truthy_asthmaFlag (ups : Option PyDict) :
    prefsAsthma ups = truthy (asthmaFlag ups) := by
  cases ups with
  | none => rfl
  | some p =>
    cases p with
    | nil => rfl
    | cons x t => simp [prefsAsthma, asthmaFlag, List.isEmpty]

/-- C7: with a string summary, the advisory generator emits the two fixed
    outdoor-activity warnings when the summary contains `"poor"` or
    `"avoid"` case-insensitively and the single positive message otherwise,
    appending the inhaler warning exactly when the asthma preference flag
    is truthy. -/
theorem advise_spec (e : PyDict) (ups : Option PyDict) (s : String)
    (hs : pyGetD e "summary" (PyVal.vStr "") = PyVal.vStr s) :
    ("poor".data <:+: (strLower s).data ∨ "avoid".data <:+: (strLower s).data →
      truthy (asthmaFlag ups) = true →
      advise e ups = some [adviceAvoid, adviceMask, adviceInhaler]) ∧
    ("poor".data <:+: (strLower s).data ∨ "avoid".data <:+: (strLower s).data →
      truthy (asthmaFlag ups) = false →
      advise e ups = some [adviceAvoid, adviceMask]) ∧
    (¬ ("poor".data <:+: (strLower s).data ∨ "avoid".data <:+: (strLower s).data) →
      truthy (asthmaFlag ups) = true →
      advise e ups = some [adviceGood, adviceInhaler]) ∧
    (¬ ("poor".data <:+: (strLower s).data ∨ "avoid".data <:+: (strLower s).data) →
      truthy (asthmaFlag ups) = false →
      advise e ups = some [adviceGood]) := by
  have hcond : (hasSub "poor".data (strLower s).data || hasSub "avoid".data (strLower s).data) = true
      ↔ ("poor".data <:+: (strLower s).data ∨ "avoid".data <:+: (strLower s).data) := by
    simp [Bool.or_eq_true, hasSub_iff]
  have hpref := prefsAsthma_eq_truthy_asthmaFlag ups
  refine ⟨?_, ?_, ?_, ?_⟩ <;> intro hfound hasth
  · have hc := hcond.mpr hfound
    simp [advise, hs, hc, hpref, hasth]
  · have hc := hcond.mpr hfound
    simp [advise, hs, hc, hpref, hasth]
  · have hc : (hasSub "poor".data (strLower s).data || hasSub "avoid".data (strLower s).data) = false := by
      rw [← Bool.not_eq_true]
      exact fun h => hfound (hcond.mp h)
    simp [advise, hs, hc, hpref, hasth]
  · have hc : (hasSub "poor".data (strLower s).data || hasSub "avoid".data (strLower s).data) = false := by
      rw [← Bool.not_eq_true]
      exact fun h => hfound (hcond.mp h)
    simp [advise, hs, hc, hpref, hasth]

/-- Witness for C7: a "poor" summary with asthma=true yields the 3-element
    list ending in the inhaler warning. -/
theorem advise_spec_witness :
    advise [("summary", PyVal.vStr "Air quality is POOR today")]
        (some [("asthma", PyVal.vBool true)])
      = some [adviceAvoid, adviceMask, adviceInhaler] :=
  (advise_spec [("summary", PyVal.vStr "Air quality is POOR today")]
      (some [("asthma", PyVal.vBool true)]) "Air quality is POOR today" rfl).1
    (Or.inl (by decide)) (by decide)

/-- C8: with an empty or absent history, a reading whose pm25 field
    coerces to a number is classified trend="stable", anomaly=false,
    confidence=0.8. -/
theorem analyze_no_history_spec (dp : PyDict)
    (h : (pyFloat (pyGetD dp "pm25" (PyVal.vNum 0))).isSome = true) :
    analyze dp Option.none = mkAnalysis "stable" false (8/10) ∧
    analyze dp (some []) = mkAnalysis "stable" false (8/10) := by
  obtain ⟨v, hv⟩ := Option.isSome_iff_exists.mp h
  constructor
  · simp [analyze, hv]
  · simp [analyze, hv, List.isEmpty]

/-- Witness for C8: a datapoint with no pm25 key (coerced from the
    default 0). -/
theorem analyze_no_history_spec_witness :
    analyze [] Option.none = mkAnalysis "stable" false (8/10) ∧
    analyze [] (some []) = mkAnalysis "stable" false (8/10) :=
  analyze_no_history_spec [] rfl

/-- C1: with a coercible pm25, a non-empty history whose coerced value
    list yields a strictly positive mean M, the classifier returns
    trend="rising" with anomaly=true when today's pm25 exceeds 1.3×M,
    trend="falling" with anomaly=false when it is below 0.8×M, and
    trend="stable" otherwise, with confidence 0.9 in all three cases. -/
theorem analyze_history_spec (dp : PyDict) (rs : List PyDict) (today M : ℚ)
    (vals : List ℚ)
    (htoday : pyFloat (pyGetD dp "pm25" (PyVal.vNum 0)) = some today)
    (hrs : rs ≠ [])
    (hvals : histVals rs = some vals)
    (hM : M = vals.sum / (vals.length : ℚ))
    (hpos : 0 < M) :
    (M * (13/10) < today → analyze dp (some rs) = mkAnalysis "rising" true (9/10)) ∧
    (today < M * (8/10) → analyze dp (some rs) = mkAnalysis "falling" false (9/10)) ∧
    (¬ M * (13/10) < today → ¬ today < M * (8/10) →
      analyze dp (some rs) = mkAnalysis "stable" false (9/10)) := by
  subst hM
  have h1 : rs.isEmpty = false := by
    cases rs with
    | nil => exact absurd rfl hrs
    | cons a t => rfl
  have hvne : vals ≠ [] := by
    rintro rfl
    norm_num at hpos
  have h2 : vals.isEmpty = false := by
    cases vals with
    | nil => exact absurd rfl hvne
    | cons a t => rfl
  have hred : analyze dp (some rs) =
      if vals.sum / (vals.length : ℚ) * (13/10) < today then mkAnalysis "rising" true (9/10)
      else if today < vals.sum / (vals.length : ℚ) * (8/10) then mkAnalysis "falling" false (9/10)
      else mkAnalysis "stable" false (9/10) := by
    simp only [analyze, htoday, h1, hvals, h2, Bool.false_eq_true, if_false]
    rw [if_pos hpos]
  refine ⟨fun hc => by rw [hred, if_pos hc], fun hc => ?_, fun hc1 hc2 => by
    rw [hred, if_neg hc1, if_neg hc2]⟩
  have hc1 : ¬ vals.sum / (vals.length : ℚ) * (13/10) < today := by
    rw [not_lt]
    have hle : vals.sum / (vals.length : ℚ) * (8/10)
        ≤ vals.sum / (vals.length : ℚ) * (13/10) := by nlinarith
    linarith
  rw [hred, if_neg hc1, if_pos hc]

/-- Witness for C1: history mean 10, today 14 > 13 = 1.3×10. -/
theorem analyze_history_spec_witness :
    analyze [("pm25", PyVal.vNum 14)] (some [[("pm25", PyVal.vStr "10")]])
      = mkAnalysis "rising" true (9/10) :=
  (analyze_history_spec [("pm25", PyVal.vNum 14)] [[("pm25", PyVal.vStr "10")]]
      14 10 [10] (by with_unfolding_all rfl) (by simp)
      (by with_unfolding_all rfl) (by norm_num) (by norm_num)).1
    (by norm_num)

/-- The value list C5 describes, formalised from the claim's words for
    comparison: rows whose pm25 field is absent are skipped as well as
    rows whose pm25 field is the empty string. -/
def claimHistVals (rs : List PyDict) : Option (List ℚ) :=
  seqOpt
    ((rs.filter (fun x =>
      match dictGet? x "pm25" with
      | some v => !(v == PyVal.vStr "")
      | Option.none => false)).map rowVal)

/-- Counterexample to C5 at an explicit input: with history
    `[{pm25: "10"}, {}]` the code's value list is `[10, 0]` (the row with
    absent pm25 contributes 0 to the sum and 1 to the count), while the
    claim's skipping rule yields `[10]` with mean 10; the classifier
    reports "rising" for today's pm25 = 9 even though 9 does not exceed
    1.3×10, so the mean the code uses is not the claim's mean. -/
theorem analyze_absent_counterexample :
    histVals [[("pm25", PyVal.vStr "10")], []] = some [10, 0] ∧
    claimHistVals [[("pm25", PyVal.vStr "10")], []] = some [10] ∧
    analyze [("pm25", PyVal.vNum 9)] (some [[("pm25", PyVal.vStr "10")], []])
      = mkAnalysis "rising" true (9/10) ∧
    ¬ ((10 : ℚ) * (13/10) < 9) := by
  refine ⟨by with_unfolding_all rfl, by with_unfolding_all rfl,
    by with_unfolding_all rfl, by norm_num⟩

/-- C5 (amended): the value list averaged by the classifier skips exactly
    the rows whose pm25 field is the empty string; a row whose pm25 field
    is absent is kept and contributes the coerced default 0 to the sum and
    one element to the count. -/
theorem histVals_amended_spec (x : PyDict) (rs : List PyDict) :
    (pyGet x "pm25" = PyVal.vStr "" → histVals (x :: rs) = histVals rs) ∧
    (dictGet? x "pm25" = Option.none →
      histVals (x :: rs) = (histVals rs).map (fun l => (0 : ℚ) :: l)) := by
  constructor
  · intro hx
    have hp : (!(pyGet x "pm25" == PyVal.vStr "")) = false := by
      rw [hx]; simp
    simp [histVals, List.filter_cons, hp]
  · intro hx
    have hfind : x.find? (fun p => p.1 == "pm25") = Option.none := by
      cases hf : x.find? (fun p => p.1 == "pm25") with
      | none => rfl
      | some p => simp [dictGet?, hf] at hx
    have h1 : pyGet x "pm25" = PyVal.vNone := by simp [pyGet, hfind]
    have h2 : rowVal x = some 0 := by simp [rowVal, pyGetD, hfind, pyFloat]
    have hp : (!(pyGet x "pm25" == PyVal.vStr "")) = true := by
      rw [h1]; simp
    simp [histVals, List.filter_cons, hp, h2, seqOpt]

/-- Witness for C5 (amended): prepending a row with no pm25 key prepends a
    zero to the value list. -/
theorem histVals_amended_spec_witness :
    histVals [([] : PyDict), [("pm25", PyVal.vStr "10")]]
      = (histVals [[("pm25", PyVal.vStr "10")]]).map (fun l => (0 : ℚ) :: l) :=
  (histVals_amended_spec [] [[("pm25", PyVal.vStr "10")]]).2 rfl

/-- C2: whenever the search adapter raises or the snippet parse is empty,
    the CSV fallback decides the fetch: the fetch returns
    `{"error": "no data available"}` exactly when the CSV result is an
    error record, and otherwise (when the coercions succeed) returns a
    reading with pm25/pm10 coerced to float, aqi coerced to int
    (defaulting to -1 when absent) and source "sample_csv". -/
theorem fetch_fallback_spec (searchOut : Option SearchRes) (path : String)
    (file : Option (List Row)) (loc now : String)
    (hfail : searchOut = Option.none ∨
      ∃ r, searchOut = some r ∧ parse_search_snippet r.result_snippet = []) :
    (fetch searchOut path file loc now
        = FetchOut.ok [("error", PyVal.vStr "no data available")]
      ↔ isErrorRecord (csvRun path file loc) = true) ∧
    (∀ (s25 s10 : String) (q25 q10 : ℚ) (aqi : ℤ),
      isErrorRecord (csvRun path file loc) = false →
      rowGet? (csvRun path file loc) "pm25" = some s25 → pyFloat? s25 = some q25 →
      rowGet? (csvRun path file loc) "pm10" = some s10 → pyFloat? s10 = some q10 →
      aqiCoerce (csvRun path file loc) = some aqi →
      fetch searchOut path file loc now = FetchOut.ok
        [("pm25", PyVal.vNum q25), ("pm10", PyVal.vNum q10), ("aqi", PyVal.vNum aqi),
         ("timestamp", optStrVal (rowGet? (csvRun path file loc) "date")),
         ("source", PyVal.vStr "sample_csv")]) := by
  have hfb : fetch searchOut path file loc now = fetchFallback path file loc := by
    rcases hfail with rfl | ⟨r, rfl, hr⟩
    · rfl
    · simp [fetch, hr]
  rw [hfb]
  constructor
  · constructor
    · intro hok
      by_contra hne
      rw [Bool.not_eq_true] at hne
      rw [fetchFallback] at hok
      rw [if_neg (by rw [hne]; exact Bool.false_ne_true)] at hok
      rcases h25 : rowGet? (csvRun path file loc) "pm25" with _ | s25 <;>
        simp only [h25] at hok
      · exact FetchOut.noConfusion hok
      rcases hf25 : pyFloat? s25 with _ | q25 <;> simp only [hf25] at hok
      · exact FetchOut.noConfusion hok
      rcases h10 : rowGet? (csvRun path file loc) "pm10" with _ | s10 <;>
        simp only [h10] at hok
      · exact FetchOut.noConfusion hok
      rcases hf10 : pyFloat? s10 with _ | q10 <;> simp only [hf10] at hok
      · exact FetchOut.noConfusion hok
      rcases haqi : aqiCoerce (csvRun path file loc) with _ | aqi <;>
        simp only [haqi] at hok
      · exact FetchOut.noConfusion hok
      simp at hok
    · intro herr
      rw [fetchFallback, if_pos herr]
  · intro s25 s10 q25 q10 aqi herr h25 hf25 h10 hf10 haqi
    rw [fetchFallback, if_neg (by rw [herr]; exact Bool.false_ne_true)]
    simp only [h25, hf25, h10, hf10, haqi]

/-- Witness for C2: the search adapter raises and the CSV has a matching
    row, which is coerced into a sample_csv reading. -/
theorem fetch_fallback_spec_witness :
    fetch Option.none "p"
        (some [[("location", "x"), ("pm25", "12.5"), ("pm10", "30"),
          ("aqi", "90"), ("date", "2020-01-01")]]) "x" "NOW"
      = FetchOut.ok
        [("pm25", PyVal.vNum (25/2)), ("pm10", PyVal.vNum 30), ("aqi", PyVal.vNum 90),
         ("timestamp", PyVal.vStr "2020-01-01"), ("source", PyVal.vStr "sample_csv")] := by
  have h := (fetch_fallback_spec Option.none "p"
      (some [[("location", "x"), ("pm25", "12.5"), ("pm10", "30"),
        ("aqi", "90"), ("date", "2020-01-01")]]) "x" "NOW" (Or.inl rfl)).2
      "12.5" "30" (25/2) 30 90 rfl rfl (by with_unfolding_all rfl) rfl
      (by with_unfolding_all rfl) (by with_unfolding_all rfl)
  exact h.trans (by with_unfolding_all rfl)

end APIA
